import Mathlib

/-!
Shallow embedding of the snoop2 task-statistics, analyzer failure paths, retry
action and tag serializer, translated from:

  - snoop/data/admin.py        (get_task_matrix, get_stats.get_progress_str,
                                TaskAdmin.retry_selected_tasks)
  - snoop/data/analyzers/pdf_preview.py  (call_pdf_generator)
  - snoop/data/analyzers/entities.py     (call_nlp_server)
  - snoop/data/analyzers/pgp.py          (decrypt)
  - snoop/data/serializers.py  (DocumentUserTagSerializer)

Timestamps and real-valued quantities are modelled as rationals; Python float
arithmetic on these small quantities is exact division, so `ℚ` is faithful.
Fallible Python code (divisions that could raise ZeroDivisionError, raised
exceptions) is modelled with `Option` / `Except`.
-/

namespace Snoop

/-- Task status codes.  The five values displayed by the admin
(`TaskAdmin.LINK_STYLE` in admin.py) and listed in the spec's status enum. -/
inductive Status
  | pending
  | deferred
  | success
  | broken
  | error
deriving DecidableEq, Repr

/-- Modelled from the spec: `models.Task.ALL_STATUS_CODES` lives in
`snoop/data/models.py`, which is not among the source files.  The spec's
status enum lists exactly pending, deferred, success, broken, error. -/
def ALL_STATUS_CODES : List Status :=
  [.pending, .deferred, .success, .broken, .error]

/-- A row of the `data_task` table, with the columns used by admin.py and by
the retry operation.  `date_started` / `date_finished` are nullable
(`DateTimeField(blank=True, null=True)` per migration 0015), modelled as
`Option ℚ` seconds-since-epoch. -/
structure Task where
  func : String
  status : Status
  errorField : String := ""
  log : String := ""
  broken_reason : String := ""
  result : Option String := none
  date_started : Option ℚ := none
  date_finished : Option ℚ := none
deriving DecidableEq, Repr

/-! ## get_task_matrix (admin.py lines 59-103)

The Django aggregation queries are embedded as list computations over the
task queryset: `values('func','status').annotate(count=Count('*'))` becomes
`bucketCount`, and the 5-minute window query
(`filter(date_finished__gt=now - 5min).values('func')` with `Count` and
`Avg(date_finished - date_started)`) becomes `fiveMCount` / `avgDuration`. -/

/-- `mins * 60` with `mins = 5`: length of the trailing window in seconds. -/
def windowSecs : ℚ := 5 * 60

/-- Number of tasks of function `f` in status `s` (the func/status bucket
counts of the first aggregation query). -/
def bucketCount (ts : List Task) (f : String) (s : Status) : Nat :=
  (ts.filter (fun t => t.func == f && t.status == s)).length

/-- `row.get('pending', 0)` for function `f`. -/
def pendingCount (ts : List Task) (f : String) : Nat :=
  bucketCount ts f .pending

/-- The SQL filter `date_finished__gt = timezone.now() - timedelta(minutes=5)`:
true when the task has a non-null finish timestamp strictly greater than
`now - 300` seconds. -/
def inWindow (now : ℚ) (t : Task) : Bool :=
  match t.date_finished with
  | some d => decide (now - windowSecs < d)
  | none => false

/-- Tasks of function `f` finished within the trailing window. -/
def recentTasks (now : ℚ) (ts : List Task) (f : String) : List Task :=
  ts.filter (fun t => t.func == f && inWindow now t)

/-- `count` of the 5-minute aggregation bucket for function `f`. -/
def fiveMCount (now : ℚ) (ts : List Task) (f : String) : Nat :=
  (recentTasks now ts f).length

/-- `date_finished - date_started` in seconds (the quantity averaged by the
`Avg` aggregate; finished tasks always carry both timestamps). -/
def duration (t : Task) : ℚ :=
  t.date_finished.getD 0 - t.date_started.getD 0

/-- Sum of the durations over the window bucket. -/
def sumDurations (now : ℚ) (ts : List Task) (f : String) : ℚ :=
  ((recentTasks now ts f).map duration).sum

/-- `avg_duration`: the SQL `Avg` aggregate, i.e. sum divided by count. -/
def avgDuration (now : ℚ) (ts : List Task) (f : String) : ℚ :=
  sumDurations now ts f / (fiveMCount now ts f : ℚ)

/-- `rate = count / (mins * 60)`. -/
def rateOf (now : ℚ) (ts : List Task) (f : String) : ℚ :=
  (fiveMCount now ts f : ℚ) / windowSecs

/-- The ETA assignment inside the 5-minute loop:
`if pending and rate > 0: row['eta'] = timedelta(seconds=int(pending / rate))`.
Python `int()` truncates; `pending / rate` is nonnegative, so truncation is
the floor. -/
def etaFormula (pending : Nat) (rate : ℚ) : Option ℤ :=
  if pending ≠ 0 ∧ 0 < rate then some ⌊(pending : ℚ) / rate⌋ else none

/-- `row['eta']` for function `f`: the 5-minute loop only visits functions
with a nonempty window bucket, and within it applies `etaFormula`. -/
def etaOf (now : ℚ) (ts : List Task) (f : String) : Option ℤ :=
  if fiveMCount now ts f = 0 then none
  else etaFormula (pendingCount ts f) (rateOf now ts f)

/-! ## get_stats.get_progress_str (admin.py lines 132-152)

`get_progress_str` reads the matrix rows (`task_matrix.values()`); a row is a
dict holding per-status counts (only keys in `ALL_STATUS_CODES` are summed
into `task_states`) plus the optional `'eta'` entry.  The row is embedded as
a structure with the two components the function reads; the non-status keys
(`'5m'`, `'5m_duration'`, `'5m_fill'`) are skipped by the
`if state in models.Task.ALL_STATUS_CODES` filter and carry no data used
here.  The returned string interleaves fixed text with three numbers; the
embedding returns those numbers structurally (`ProgressStr`), since the
digit-formatting is presentation only.  The two float divisions may raise
`ZeroDivisionError` in Python, so they are embedded as the checked division
`cdiv` in the `Option` monad. -/

/-- One value of the `task_matrix` dict as read by `get_progress_str`:
per-status counts and the optional ETA (integer seconds, from
`timedelta(seconds=int(...))`). -/
structure MatrixRow where
  counts : Status → Nat
  eta : Option ℤ := none

/-- `sum((row.get('eta', zero) for row in task_matrix.values()), start=zero) * 2`
(in seconds). -/
def etaTotal (rows : List MatrixRow) : ℤ :=
  (rows.foldl (fun acc r => acc + r.eta.getD 0) 0) * 2

/-- `task_states[state]`: counts summed over all rows, per status. -/
def taskStates (rows : List MatrixRow) (s : Status) : Nat :=
  (rows.map (fun r => r.counts s)).sum

/-- `count_finished = success + broken + error`. -/
def countFinished (rows : List MatrixRow) : Nat :=
  taskStates rows .success + taskStates rows .broken + taskStates rows .error

/-- `count_error = broken + error`. -/
def countError (rows : List MatrixRow) : Nat :=
  taskStates rows .broken + taskStates rows .error

/-- `count_all = sum(task_states.values())`: totals over every status code. -/
def countAll (rows : List MatrixRow) : Nat :=
  (ALL_STATUS_CODES.map (taskStates rows)).sum

/-- Checked division on ℚ: Python float division, which raises
`ZeroDivisionError` when the denominator is zero. -/
def cdiv (a b : ℚ) : Option ℚ :=
  if b = 0 then none else some (a / b)

/-- The data content of `get_progress_str`'s return value: either the fixed
string `'empty'`, or the processed percentage (an integer, after
`trunc(...)` and `%0.0f`), the optional error percentage (shown only when
`count_error > 0`) and the optional doubled aggregate ETA in seconds (shown
only when above one second). -/
inductive ProgressStr
  | empty
  | progress (pct : ℤ) (errorPct : Option ℚ) (etaSecs : Option ℤ)
deriving DecidableEq, Repr

/-- `get_progress_str` itself.  `trunc` on a nonnegative float is the floor.
`none` as the overall result would mean a `ZeroDivisionError` escaped. -/
def get_progress_str (rows : List MatrixRow) : Option ProgressStr :=
  let eta := etaTotal rows
  let etaSecs : Option ℤ := if 1 < eta then some eta else none
  if countAll rows = 0 then some .empty
  else do
    let errorPct : Option ℚ ←
      if 0 < countError rows then
        (cdiv (100 * (countError rows : ℚ)) (countAll rows : ℚ)).map some
      else some none
    let pq ← cdiv (100 * (countFinished rows : ℚ)) (countAll rows : ℚ)
    some (.progress ⌊pq⌋ errorPct etaSecs)

/-! ## Analyzer failure paths

`call_pdf_generator` (pdf_preview.py lines 36-51), `call_nlp_server`
(entities.py lines 12-41) and `decrypt` (pgp.py lines 22-35).  Raised Python
exceptions become the `.error` side of an `Except`; the exception class is
kept, because the execution wrapper classifies `SnoopTaskBroken` differently
from every other exception. -/

/-- The Python exception classes raised by the embedded analyzer code.
`snoopTaskBroken` carries the message and the structured reason code. -/
inductive PyExc
  | snoopTaskBroken (msg : String) (reason : String)
  | runtimeError (msg : String)
  | connectionError (msg : String)
  | notImplementedError (msg : String)
  | calledProcessError (returncode : Nat)
deriving DecidableEq, Repr

/-- Modelled from the spec: the execution wrapper lives in
`snoop.data.tasks` (not among the source files).  Per spec §4.4, a raised
"broken" signal (`SnoopTaskBroken`) records status `broken` with the
supplied reason code, and any other raised failure records status `error`. -/
def classifyFailure : PyExc → Status
  | .snoopTaskBroken _ _ => .broken
  | _ => .error

/-- An HTTP response as the analyzer code reads it: status code, the
`Content-Type` header, and the body (PDF bytes or decoded JSON, both kept
opaque as a string). -/
structure HttpResponse where
  status_code : Nat
  contentType : String
  content : String
deriving DecidableEq, Repr

/-- `call_pdf_generator` (pdf_preview.py): raises `SnoopTaskBroken` on
HTTP 504, `RuntimeError` on any other non-200 status or non-PDF content
type, and returns the body otherwise. -/
def call_pdf_generator (resp : HttpResponse) : Except PyExc String :=
  if resp.status_code = 504 then
    .error (.snoopTaskBroken "pdf generator timed out and returned http 504"
      "pdf_previe_http_504")
  else if resp.status_code ≠ 200 ∨ resp.contentType ≠ "application/pdf" then
    .error (.runtimeError "Unexpected response from pdf generator")
  else .ok resp.content

/-- `call_nlp_server` (entities.py): raises `ConnectionError` on 404,
`NotImplementedError` on 500, `RuntimeError` on any other non-200 status or
non-JSON content type, and returns the decoded body otherwise. -/
def call_nlp_server (resp : HttpResponse) : Except PyExc String :=
  if resp.status_code = 404 then
    .error (.connectionError "Server not found")
  else if resp.status_code = 500 then
    .error (.notImplementedError "Server cannot fulfill request")
  else if resp.status_code ≠ 200 ∨ resp.contentType ≠ "application/json" then
    .error (.runtimeError "Unexpected response from nlp service")
  else .ok resp.content

/-- The environment `decrypt` runs in: whether the current collection's
`gpghome` directory exists, and the behaviour of the `gpg --decrypt`
subprocess (`none` = nonzero exit status, which `check=True` turns into
`CalledProcessError`). -/
structure GpgEnv where
  gpghomeExists : Bool
  gpgDecrypt : List Nat → Option (List Nat)

/-- The `subprocess.run(['gpg', ..., '--decrypt'], input=data, check=True)`
call followed by returning its stdout. -/
def runGpg (env : GpgEnv) (data : List Nat) : Except PyExc (List Nat) :=
  match env.gpgDecrypt data with
  | some out => .ok out
  | none => .error (.calledProcessError 2)

/-- `decrypt` (pgp.py): raises `SnoopTaskBroken` with reason
`'gpg_not_configured'` when the gpghome directory is missing, otherwise runs
`gpg --decrypt` on the data and returns its stdout. -/
def decrypt (env : GpgEnv) (data : List Nat) : Except PyExc (List Nat) :=
  if !env.gpghomeExists then
    .error (.snoopTaskBroken "No gpghome folder" "gpg_not_configured")
  else runGpg env data

/-! ## TaskAdmin.retry_selected_tasks (admin.py lines 422-426) -/

/-- Modelled from the spec: `snoop.data.tasks.retry_tasks` is not among the
source files.  Per spec §4.5, retry, for each selected task currently in
`{broken, error}`, transitions it back to `pending` and clears `error`,
`log`, `broken_reason`, `result`, `date_started`, `date_finished`. -/
def resetTask (t : Task) : Task :=
  { t with
    status := .pending
    errorField := ""
    log := ""
    broken_reason := ""
    result := none
    date_started := none
    date_finished := none }

/-- Whether retry re-arms this task (spec §4.5: currently broken or error). -/
def isRetryable (t : Task) : Bool :=
  t.status == .broken || t.status == .error

/-- Modelled from the spec: the body of `snoop.data.tasks.retry_tasks`
applied to the selected queryset (see `resetTask`). -/
def retry_tasks (qs : List Task) : List Task :=
  qs.map (fun t => if isRetryable t then resetTask t else t)

/-- Number of selected tasks the retry actually re-arms. -/
def affectedCount (qs : List Task) : Nat :=
  (qs.filter isRetryable).length

/-- `TaskAdmin.retry_selected_tasks`: calls `tasks.retry_tasks(queryset)`,
then reports `f"requeued {queryset.count()} tasks"`.  The embedding returns
the number interpolated into the message alongside the new task states. -/
def retry_selected_tasks (qs : List Task) : Nat × List Task :=
  (qs.length, retry_tasks qs)

/-! ## DocumentUserTagSerializer (serializers.py)

`create`/`update` copy `validated_data` into a fresh dict and overwrite the
`'user'` and `'digest_id'` keys from the server-side serializer context
before handing the dict to the framework, which assigns each key onto the
model instance.  The embedding keeps the possibly client-supplied `user` /
`digest_id` entries of `validated_data` to show they are discarded. -/

/-- The validated request payload as a dict: writable fields `public` and
`tag`, plus possibly-present `user` / `digest_id` entries. -/
structure ValidatedData where
  user : Option String := none
  digest_id : Option Nat := none
  public : Bool
  tag : String
deriving DecidableEq, Repr

/-- The server-side serializer context (`self.context`). -/
structure SerializerContext where
  user : String
  digest_id : Nat
deriving DecidableEq, Repr

/-- A stored `DocumentUserTag` row (the fields written by the serializer). -/
structure StoredTag where
  id : Nat
  user : String
  digest_id : Nat
  public : Bool
  tag : String
deriving DecidableEq, Repr

/-- `DocumentUserTagSerializer.create`: `data = dict(validated_data)`,
`data['user'] = self.context['user']`,
`data['digest_id'] = self.context['digest_id']`, then the model row is
created from `data` (with a fresh primary key `newId`). -/
def serializerCreate (ctx : SerializerContext) (vd : ValidatedData)
    (newId : Nat) : StoredTag :=
  { id := newId
    user := ctx.user
    digest_id := ctx.digest_id
    public := vd.public
    tag := vd.tag }

/-- `DocumentUserTagSerializer.update`: same dict override, then each key of
`data` is assigned onto the existing instance; the primary key persists. -/
def serializerUpdate (ctx : SerializerContext) (inst : StoredTag)
    (vd : ValidatedData) : StoredTag :=
  { inst with
    user := ctx.user
    digest_id := ctx.digest_id
    public := vd.public
    tag := vd.tag }

/-! ## Concrete inputs used by counterexamples and witnesses -/

/-- A finished task of function `"f"`: started at time 0, finished at time 10. -/
def exFinished : Task :=
  { func := "f", status := .success, date_started := some 0, date_finished := some 10 }

/-- A pending task of function `"f"`. -/
def exPending : Task := { func := "f", status := .pending }

/-- A broken task of function `"g"` carrying failure details. -/
def exBroken : Task :=
  { func := "g", status := .broken, errorField := "boom", log := "l",
    broken_reason := "r", result := some "res" }

/-- A selection consisting of one successful task only. -/
def exSuccessOnly : List Task := [{ func := "g", status := .success }]

/-- Seven tasks of `"f"` finished in the window plus one pending task:
`rate = 7/300`, `pending = 1`, so `pending / rate = 300/7` is not an
integer. -/
def exTasks7 : List Task :=
  [exFinished, exFinished, exFinished, exFinished, exFinished, exFinished,
    exFinished, exPending]

/-- Status counts of a matrix row: 1 success, 2 pending. -/
def exCounts : Status → Nat
  | .success => 1
  | .pending => 2
  | _ => 0

/-- A matrix with one success and two pending tasks and no ETA. -/
def exRows : List MatrixRow := [{ counts := exCounts }]

/-- Status counts of a matrix row: 1 success, 1 broken, 2 error. -/
def exCountsErr : Status → Nat
  | .success => 1
  | .broken => 1
  | .error => 2
  | _ => 0

/-- A matrix with finished tasks, errors and a per-function ETA of 5s. -/
def exRowsErr : List MatrixRow := [{ counts := exCountsErr, eta := some 5 }]

/-- Status counts of a matrix row: 1 success only. -/
def exCountsDone : Status → Nat
  | .success => 1
  | _ => 0

/-- A fully processed matrix with a per-function ETA of 5s. -/
def exRowsDone : List MatrixRow := [{ counts := exCountsDone, eta := some 5 }]

/-! # Theorems -/

/-- C1 counterexample: with one task finished inside the window and no
pending tasks, the rate is positive yet no ETA is reported (the
`if pending and rate > 0` guard also requires a nonzero pending count); and
with 7 finished plus 1 pending task the reported ETA is the truncated 42
seconds, not the exact `pending / rate = 300/7`. -/
theorem c1_eta_counterexample :
    0 < rateOf 10 [exFinished] "f" ∧
    etaOf 10 [exFinished] "f" = none ∧
    etaOf 10 exTasks7 "f" = some 42 ∧
    (42 : ℚ) ≠ (pendingCount exTasks7 "f" : ℚ) / rateOf 10 exTasks7 "f" := by
  have h1 : fiveMCount 10 [exFinished] "f" = 1 := by
    simp [fiveMCount, recentTasks, inWindow, exFinished, windowSecs]
  have h7 : fiveMCount 10 exTasks7 "f" = 7 := by
    simp [fiveMCount, recentTasks, inWindow, exTasks7, exFinished, exPending,
      windowSecs]
  have hp0 : pendingCount [exFinished] "f" = 0 := by
    simp [pendingCount, bucketCount, exFinished]
  have hp1 : pendingCount exTasks7 "f" = 1 := by
    simp [pendingCount, bucketCount, exTasks7, exFinished, exPending]
  refine ⟨?_, ?_, ?_, ?_⟩
  · rw [rateOf, h1, windowSecs]; norm_num
  · rw [etaOf, etaFormula]
    simp [h1, hp0]
  · rw [etaOf, h7]
    simp only [etaFormula, hp1, rateOf, h7, windowSecs]
    rw [if_neg (by norm_num), if_pos (by norm_num)]
    rw [Option.some.injEq, Int.floor_eq_iff]
    norm_num
  · rw [hp1, rateOf, h7, windowSecs]
    norm_num

/-- C1 amended: the estimator reports an ETA for a function exactly when
the completion rate is positive and the pending count is positive, and the
reported value is the floor of `pending / rate` in whole seconds; the ETA
is omitted otherwise (in particular when `pending = 0` even though the rate
is positive). -/
theorem c1_eta_condition (now : ℚ) (ts : List Task) (f : String) :
    etaOf now ts f =
      if 0 < rateOf now ts f ∧ 0 < pendingCount ts f
      then some ⌊(pendingCount ts f : ℚ) / rateOf now ts f⌋
      else none := by
  rcases Nat.eq_zero_or_pos (fiveMCount now ts f) with h | h
  · rw [etaOf, if_pos h, rateOf, h]
    norm_num
  · have hne : fiveMCount now ts f ≠ 0 := Nat.pos_iff_ne_zero.mp h
    have hrate : 0 < rateOf now ts f := by
      rw [rateOf, windowSecs]
      positivity
    rw [etaOf, if_neg hne, etaFormula]
    rcases Nat.eq_zero_or_pos (pendingCount ts f) with hp | hp
    · rw [hp]
      simp [hrate]
    · rw [if_pos ⟨Nat.pos_iff_ne_zero.mp hp, hrate⟩, if_pos ⟨hrate, hp⟩]

/-- C7: the 5-minute bucket for a function contains exactly the tasks of
that function whose finish timestamp lies within the trailing 5-minute
window; its reported rate is the bucket count divided by 300 seconds; and
the reported average duration is the mean of `date_finished - date_started`
over the bucket. -/
theorem c7_window_stats (now : ℚ) (ts : List Task) (f : String)
    (h : 0 < fiveMCount now ts f) :
    (∀ t, t ∈ recentTasks now ts f ↔
      t ∈ ts ∧ t.func = f ∧ ∃ d, t.date_finished = some d ∧ now - windowSecs < d) ∧
    rateOf now ts f = (fiveMCount now ts f : ℚ) / (5 * 60) ∧
    (fiveMCount now ts f : ℚ) * avgDuration now ts f
      = ((recentTasks now ts f).map duration).sum := by
  refine ⟨?_, rfl, ?_⟩
  · intro t
    rw [recentTasks, List.mem_filter]
    constructor
    · rintro ⟨hts, hcond⟩
      rw [Bool.and_eq_true] at hcond
      obtain ⟨hf, hw⟩ := hcond
      refine ⟨hts, by simpa using hf, ?_⟩
      rw [inWindow] at hw
      cases hd : t.date_finished with
      | none => rw [hd] at hw; simp at hw
      | some d => rw [hd] at hw; exact ⟨d, rfl, by simpa using hw⟩
    · rintro ⟨hts, hf, d, hd, hlt⟩
      refine ⟨hts, ?_⟩
      rw [Bool.and_eq_true]
      constructor
      · simpa using hf
      · rw [inWindow, hd]
        simpa using hlt
  · have hc : (fiveMCount now ts f : ℚ) ≠ 0 :=
      Nat.cast_ne_zero.mpr (Nat.pos_iff_ne_zero.mp h)
    rw [avgDuration, sumDurations, mul_comm, div_mul_cancel₀ _ hc]

/-- C7 witness: the window statistics at a singleton task list. -/
theorem c7_window_stats_witness :
    (exFinished ∈ recentTasks 10 [exFinished] "f" ↔
      exFinished ∈ [exFinished] ∧ exFinished.func = "f" ∧
      ∃ d, exFinished.date_finished = some d ∧ 10 - windowSecs < d) ∧
    rateOf 10 [exFinished] "f" = (fiveMCount 10 [exFinished] "f" : ℚ) / (5 * 60) ∧
    (fiveMCount 10 [exFinished] "f" : ℚ) * avgDuration 10 [exFinished] "f"
      = ((recentTasks 10 [exFinished] "f").map duration).sum := by
  have h : 0 < fiveMCount 10 [exFinished] "f" := by
    simp [fiveMCount, recentTasks, inWindow, exFinished, windowSecs]
  have hall := c7_window_stats 10 [exFinished] "f" h
  exact ⟨hall.1 exFinished, hall.2.1, hall.2.2⟩

/-- C8: with the completion rate held constant and positive, the reported
ETA seconds are monotonically non-decreasing in the pending count; once the
pending count falls below the rate the reported ETA is zero seconds (the
value trends to zero); and with a zero rate no ETA is produced. -/
theorem c8_eta_monotone (rate : ℚ) (p q : Nat) (hrate : 0 < rate)
    (hpq : p ≤ q) :
    (etaFormula p rate).getD 0 ≤ (etaFormula q rate).getD 0 ∧
    ((p : ℚ) < rate → (etaFormula p rate).getD 0 = 0) ∧
    etaFormula p 0 = none := by
  have hfl : ∀ n : Nat, 0 ≤ ⌊(n : ℚ) / rate⌋ := fun n =>
    Int.floor_nonneg.mpr (div_nonneg (by positivity) hrate.le)
  refine ⟨?_, ?_, by simp [etaFormula]⟩
  · rcases Nat.eq_zero_or_pos p with hp | hp
    · rcases Nat.eq_zero_or_pos q with hq | hq
      · simp [etaFormula, hp, hq]
      · rw [etaFormula, etaFormula, hp]
        rw [if_neg (by simp), if_pos ⟨Nat.pos_iff_ne_zero.mp hq, hrate⟩]
        simpa using hfl q
    · have hq : 0 < q := lt_of_lt_of_le hp hpq
      rw [etaFormula, etaFormula]
      rw [if_pos ⟨Nat.pos_iff_ne_zero.mp hp, hrate⟩,
        if_pos ⟨Nat.pos_iff_ne_zero.mp hq, hrate⟩]
      simp only [Option.getD_some]
      gcongr
  · intro hsmall
    rcases Nat.eq_zero_or_pos p with hp | hp
    · simp [etaFormula, hp]
    · rw [etaFormula, if_pos ⟨Nat.pos_iff_ne_zero.mp hp, hrate⟩]
      simp only [Option.getD_some]
      rw [Int.floor_eq_zero_iff]
      constructor
      · positivity
      · exact (div_lt_one hrate).mpr hsmall

/-- C8 witness: the monotonicity statement at rate 1 with pending counts 1
and 2. -/
theorem c8_eta_monotone_witness :
    (etaFormula 1 1).getD 0 ≤ (etaFormula 2 1).getD 0 ∧
    (((1 : Nat) : ℚ) < 1 → (etaFormula 1 1).getD 0 = 0) ∧
    etaFormula 1 0 = none :=
  c8_eta_monotone 1 1 2 (by norm_num) (by norm_num)

/-- Folding `+` over the per-row ETAs is the sum of the mapped list. -/
theorem foldl_add_eta (rows : List MatrixRow) (acc : ℤ) :
    rows.foldl (fun a r => a + r.eta.getD 0) acc
      = acc + (rows.map (fun r => r.eta.getD 0)).sum := by
  induction rows generalizing acc with
  | nil => simp
  | cons r rs ih => simp [ih, add_assoc]

/-- `etaTotal` is twice the sum of the per-row ETAs. -/
theorem etaTotal_eq_two_mul_sum (rows : List MatrixRow) :
    etaTotal rows = 2 * (rows.map (fun r => r.eta.getD 0)).sum := by
  rw [etaTotal, foldl_add_eta]
  ring

/-- Closed form of `get_progress_str` on a matrix with at least one task:
no division fails, and the three reported numbers are the truncated overall
percentage, the conditional error percentage and the conditional doubled
ETA. -/
theorem get_progress_str_closed_form (rows : List MatrixRow)
    (h : countAll rows ≠ 0) :
    get_progress_str rows = some (.progress
      ⌊100 * (countFinished rows : ℚ) / (countAll rows : ℚ)⌋
      (if 0 < countError rows
        then some (100 * (countError rows : ℚ) / (countAll rows : ℚ))
        else none)
      (if 1 < etaTotal rows then some (etaTotal rows) else none)) := by
  have hq : (countAll rows : ℚ) ≠ 0 := Nat.cast_ne_zero.mpr h
  rw [get_progress_str]
  by_cases he : 0 < countError rows
  · simp [h, he, cdiv, hq]
  · simp [h, he, cdiv, hq]

/-- C2 counterexample: a matrix of one success and two pending tasks.  The
code reports the truncated processed percentage 33, while
`(success+broken+error)/total × 100 = 100/3` is not 33; and though the
claim calls for an error percentage (here `0`), none is reported because
`count_error` is zero. -/
theorem c2_progress_counterexample :
    get_progress_str exRows = some (.progress 33 none none) ∧
    countFinished exRows = 1 ∧
    countError exRows = 0 ∧
    countAll exRows = 3 ∧
    (33 : ℚ) ≠ 100 * 1 / 3 := by
  have hall : countAll exRows = 3 := by
    simp [countAll, ALL_STATUS_CODES, taskStates, exRows, exCounts]
  have hfin : countFinished exRows = 1 := by
    simp [countFinished, taskStates, exRows, exCounts]
  have herr : countError exRows = 0 := by
    simp [countError, taskStates, exRows, exCounts]
  have heta : etaTotal exRows = 0 := by
    simp [etaTotal, exRows]
  refine ⟨?_, hfin, herr, hall, by norm_num⟩
  rw [get_progress_str_closed_form exRows (by rw [hall]; norm_num)]
  rw [hall, hfin, herr, heta]
  norm_num

/-- C2 amended: on a matrix with at least one task the progress string
reports the overall percentage `(success+broken+error)/total × 100`
truncated to a whole number, and reports the error percentage
`(broken+error)/total × 100` only when `broken+error > 0`, omitting it
otherwise. -/
theorem c2_progress_percentages (rows : List MatrixRow)
    (h : countAll rows ≠ 0) :
    get_progress_str rows = some (.progress
      ⌊100 * (countFinished rows : ℚ) / (countAll rows : ℚ)⌋
      (if 0 < countError rows
        then some (100 * (countError rows : ℚ) / (countAll rows : ℚ))
        else none)
      (if 1 < etaTotal rows then some (etaTotal rows) else none)) :=
  get_progress_str_closed_form rows h

/-- C2 witness: the percentages on a matrix with one success, one broken
and two error tasks and a 5-second row ETA: 100% processed, 75% errors,
10-second aggregate ETA. -/
theorem c2_progress_percentages_witness :
    get_progress_str exRowsErr = some (.progress
      ⌊100 * (countFinished exRowsErr : ℚ) / (countAll exRowsErr : ℚ)⌋
      (if 0 < countError exRowsErr
        then some (100 * (countError exRowsErr : ℚ) / (countAll exRowsErr : ℚ))
        else none)
      (if 1 < etaTotal exRowsErr then some (etaTotal exRowsErr) else none)) :=
  c2_progress_percentages exRowsErr (by
    simp [countAll, ALL_STATUS_CODES, taskStates, exRowsErr, exCountsErr])

/-- C3: whenever the progress string carries an aggregate ETA, that value
equals the sum of the per-function ETAs (functions with no ETA contributing
zero) multiplied by two, and it exceeds the one-second display cutoff. -/
theorem c3_aggregate_eta (rows : List MatrixRow) (p : ℤ) (e : Option ℚ)
    (x : ℤ) (hx : get_progress_str rows = some (.progress p e (some x))) :
    x = 2 * (rows.map (fun r => r.eta.getD 0)).sum ∧ 1 < x := by
  have hx' : x = etaTotal rows ∧ 1 < etaTotal rows := by
    by_cases h0 : countAll rows = 0
    · rw [get_progress_str, if_pos h0] at hx
      simp at hx
    · rw [get_progress_str_closed_form rows h0] at hx
      by_cases he : 1 < etaTotal rows
      · rw [if_pos he] at hx
        simp only [Option.some.injEq, ProgressStr.progress.injEq] at hx
        exact ⟨hx.2.2.symm, he⟩
      · rw [if_neg he] at hx
        simp at hx
  refine ⟨?_, ?_⟩
  · rw [hx'.1, etaTotal_eq_two_mul_sum]
  · rw [hx'.1]
    exact hx'.2

/-- C3 witness: on the fully processed one-function matrix with a 5-second
row ETA, the reported aggregate is 10 = 2 × 5. -/
theorem c3_aggregate_eta_witness :
    (10 : ℤ) = 2 * (exRowsDone.map (fun r => r.eta.getD 0)).sum ∧
    (1 : ℤ) < 10 := by
  have hall : countAll exRowsDone = 1 := by
    simp [countAll, ALL_STATUS_CODES, taskStates, exRowsDone, exCountsDone]
  have hfin : countFinished exRowsDone = 1 := by
    simp [countFinished, taskStates, exRowsDone, exCountsDone]
  have herr : countError exRowsDone = 0 := by
    simp [countError, taskStates, exRowsDone, exCountsDone]
  have heta : etaTotal exRowsDone = 10 := by
    simp [etaTotal, exRowsDone]
  refine c3_aggregate_eta exRowsDone 100 none 10 ?_
  rw [get_progress_str_closed_form exRowsDone (by rw [hall]; norm_num)]
  rw [hall, hfin, herr, heta]
  norm_num

/-- C9: the progress-string computation never divides by zero: it returns
`'empty'` exactly when the total task count is zero, and otherwise both
checked divisions succeed, so the whole computation always produces a
value. -/
theorem c9_progress_no_div_by_zero (rows : List MatrixRow) :
    (get_progress_str rows).isSome = true ∧
    (get_progress_str rows = some .empty ↔ countAll rows = 0) := by
  by_cases h0 : countAll rows = 0
  · rw [get_progress_str, if_pos h0]
    simp [h0]
  · rw [get_progress_str_closed_form rows h0]
    simp [h0]

/-- C10: `DocumentUserTagSerializer.create`/`update` take the persisted
`user` and `digest_id` from the server-side context, so two client payloads
that differ only in client-supplied `user` or `digest_id` values produce the
same stored row. -/
theorem c10_tag_owner_from_context (ctx : SerializerContext)
    (vd : ValidatedData) (u : Option String) (d : Option Nat)
    (newId : Nat) (inst : StoredTag) :
    serializerCreate ctx { vd with user := u, digest_id := d } newId
      = serializerCreate ctx vd newId ∧
    serializerUpdate ctx inst { vd with user := u, digest_id := d }
      = serializerUpdate ctx inst vd ∧
    (serializerCreate ctx vd newId).user = ctx.user ∧
    (serializerCreate ctx vd newId).digest_id = ctx.digest_id ∧
    (serializerUpdate ctx inst vd).user = ctx.user ∧
    (serializerUpdate ctx inst vd).digest_id = ctx.digest_id :=
  ⟨rfl, rfl, rfl, rfl, rfl, rfl⟩

/-- C5: `decrypt` signals `SnoopTaskBroken` with reason
`'gpg_not_configured'` exactly when the gpghome directory is missing, does
so without running the decryption subprocess, and otherwise runs
`gpg --decrypt` and returns its stdout. -/
theorem c5_decrypt_gpg_not_configured (env : GpgEnv) (data out : List Nat) :
    (decrypt env data
        = .error (.snoopTaskBroken "No gpghome folder" "gpg_not_configured")
      ↔ env.gpghomeExists = false) ∧
    (∀ g g', decrypt { gpghomeExists := false, gpgDecrypt := g } data
      = decrypt { gpghomeExists := false, gpgDecrypt := g' } data) ∧
    (env.gpghomeExists = true → decrypt env data = runGpg env data) ∧
    (env.gpghomeExists = true → env.gpgDecrypt data = some out →
      decrypt env data = .ok out) := by
  refine ⟨?_, fun g g' => rfl, ?_, ?_⟩
  · cases h : env.gpghomeExists <;> simp [decrypt, h, runGpg]
    cases env.gpgDecrypt data <;> simp
  · intro h
    simp [decrypt, h]
  · intro h hout
    simp [decrypt, h, runGpg, hout]

/-- C5 witness: with the gpghome directory missing `decrypt` reports the
broken reason; with it present and a succeeding subprocess it returns the
subprocess output. -/
theorem c5_decrypt_gpg_not_configured_witness :
    decrypt { gpghomeExists := false, gpgDecrypt := fun _ => none } [1, 2]
      = .error (.snoopTaskBroken "No gpghome folder" "gpg_not_configured") ∧
    decrypt { gpghomeExists := true, gpgDecrypt := fun l => some l } [1, 2]
      = .ok [1, 2] := by
  constructor
  · exact (c5_decrypt_gpg_not_configured _ [1, 2] []).1.mpr rfl
  · exact (c5_decrypt_gpg_not_configured _ [1, 2] [1, 2]).2.2.2 rfl rfl

/-- C4 counterexample: an HTTP 504 from the pdf generator service raises
`SnoopTaskBroken`, which the execution wrapper records as `broken`, not
`error` as the claim states. -/
theorem c4_pdf_504_counterexample :
    call_pdf_generator { status_code := 504, contentType := "text/html", content := "" }
      = .error (.snoopTaskBroken "pdf generator timed out and returned http 504"
          "pdf_previe_http_504") ∧
    classifyFailure (.snoopTaskBroken "pdf generator timed out and returned http 504"
        "pdf_previe_http_504") = .broken ∧
    Status.broken ≠ Status.error := by
  refine ⟨rfl, rfl, by decide⟩

/-- C4 amended: a 5xx response from the nlp server always raises an
ordinary exception classified as `error`; the same holds for the pdf
generator except for status 504, which raises `SnoopTaskBroken` and is
classified `broken` with reason `'pdf_previe_http_504'`. -/
theorem c4_service_5xx_classification (resp : HttpResponse)
    (h5 : 500 ≤ resp.status_code) (h6 : resp.status_code < 600) :
    (∃ e, call_nlp_server resp = .error e ∧ classifyFailure e = .error) ∧
    (resp.status_code = 504 →
      call_pdf_generator resp
        = .error (.snoopTaskBroken "pdf generator timed out and returned http 504"
            "pdf_previe_http_504") ∧
      classifyFailure (.snoopTaskBroken "pdf generator timed out and returned http 504"
        "pdf_previe_http_504") = .broken) ∧
    (resp.status_code ≠ 504 →
      ∃ e, call_pdf_generator resp = .error e ∧ classifyFailure e = .error) := by
  refine ⟨?_, ?_, ?_⟩
  · have h404 : resp.status_code ≠ 404 := by omega
    have h200 : resp.status_code ≠ 200 := by omega
    by_cases h500 : resp.status_code = 500
    · exact ⟨.notImplementedError "Server cannot fulfill request",
        by simp [call_nlp_server, h404, h500], rfl⟩
    · exact ⟨.runtimeError "Unexpected response from nlp service",
        by simp [call_nlp_server, h404, h500, h200], rfl⟩
  · intro h504
    exact ⟨by simp [call_pdf_generator, h504], rfl⟩
  · intro h504
    have h200 : resp.status_code ≠ 200 := by omega
    exact ⟨.runtimeError "Unexpected response from pdf generator",
      by simp [call_pdf_generator, h504, h200], rfl⟩

/-- C4 witness: the amended statement applied to a concrete 504 response. -/
theorem c4_service_5xx_classification_witness :
    (∃ e, call_nlp_server { status_code := 504, contentType := "text/html", content := "" }
      = .error e ∧ classifyFailure e = .error) ∧
    ((504 : Nat) = 504 →
      call_pdf_generator { status_code := 504, contentType := "text/html", content := "" }
        = .error (.snoopTaskBroken "pdf generator timed out and returned http 504"
            "pdf_previe_http_504") ∧
      classifyFailure (.snoopTaskBroken "pdf generator timed out and returned http 504"
        "pdf_previe_http_504") = .broken) ∧
    ((504 : Nat) ≠ 504 →
      ∃ e, call_pdf_generator { status_code := 504, contentType := "text/html", content := "" }
        = .error e ∧ classifyFailure e = .error) :=
  c4_service_5xx_classification
    { status_code := 504, contentType := "text/html", content := "" }
    (by decide) (by decide)

/-- C6 counterexample: selecting a single successful task re-arms nothing,
yet the admin message reports `requeued 1 tasks`. -/
theorem c6_retry_count_counterexample :
    (retry_selected_tasks exSuccessOnly).1 = 1 ∧
    affectedCount exSuccessOnly = 0 ∧
    (1 : Nat) ≠ 0 := by
  refine ⟨rfl, by simp [affectedCount, exSuccessOnly, isRetryable], by decide⟩

/-- C6 amended: retry re-arms exactly the selected broken/error tasks back
to pending (clearing the failure fields), leaves the others unchanged, and
the count reported to the operator is the number of selected tasks -
`queryset.count()` - not the number actually re-armed. -/
theorem c6_retry_rearm_and_count (qs : List Task) (t : Task) (ht : t ∈ qs) :
    (retry_selected_tasks qs).1 = qs.length ∧
    (retry_selected_tasks qs).2.length = qs.length ∧
    (isRetryable t = true → resetTask t ∈ (retry_selected_tasks qs).2 ∧
      (resetTask t).status = .pending ∧ (resetTask t).errorField = "" ∧
      (resetTask t).log = "" ∧ (resetTask t).broken_reason = "" ∧
      (resetTask t).result = none ∧ (resetTask t).date_started = none ∧
      (resetTask t).date_finished = none) ∧
    (isRetryable t = false → t ∈ (retry_selected_tasks qs).2) := by
  refine ⟨rfl, by simp [retry_selected_tasks, retry_tasks], ?_, ?_⟩
  · intro h
    refine ⟨?_, rfl, rfl, rfl, rfl, rfl, rfl, rfl⟩
    simp only [retry_selected_tasks, retry_tasks, List.mem_map]
    exact ⟨t, ht, by simp [h]⟩
  · intro h
    simp only [retry_selected_tasks, retry_tasks, List.mem_map]
    exact ⟨t, ht, by simp [h]⟩

/-- C6 witness: the amended statement applied to a selection holding one
broken task. -/
theorem c6_retry_rearm_and_count_witness :
    (retry_selected_tasks [exBroken]).1 = 1 ∧
    (retry_selected_tasks [exBroken]).2.length = 1 ∧
    (isRetryable exBroken = true → resetTask exBroken ∈ (retry_selected_tasks [exBroken]).2 ∧
      (resetTask exBroken).status = .pending ∧ (resetTask exBroken).errorField = "" ∧
      (resetTask exBroken).log = "" ∧ (resetTask exBroken).broken_reason = "" ∧
      (resetTask exBroken).result = none ∧ (resetTask exBroken).date_started = none ∧
      (resetTask exBroken).date_finished = none) ∧
    (isRetryable exBroken = false → exBroken ∈ (retry_selected_tasks [exBroken]).2) :=
  c6_retry_rearm_and_count [exBroken] exBroken (List.mem_singleton.mpr rfl)

end Snoop
